import Mathlib

/-!
Verification of the GRR frontend server (`grr/lib/front_end.py`).

We give a shallow embedding of the frontend's core operations as pure Lean
functions.  External collaborators (the AFF4 object store, the queue
manager, the cipher, the PRNG, wall-clock time) are modelled as oracles
passed in as explicit inputs, and the side effects a call performs are
returned as an explicit trace of `Effect`s, in the order the Python code
performs them.  Timestamps are microseconds as in `RDFDatetime`; Python's
arbitrary-precision integer arithmetic is modelled with `Int` where
subtraction can go negative; the throttler's float arithmetic is modelled
exactly over `ℚ`.
-/

namespace FrontEnd

/-- `rdf_flows.GrrMessage.AuthorizationState`. -/
inductive AuthState where
  | UNAUTHENTICATED
  | AUTHENTICATED
  | DESYNCHRONIZED
  deriving DecidableEq, Repr

/-- `rdf_flows.GrrMessage.Type` (only the constructors the frontend
inspects; everything else is `MESSAGE`-like). -/
inductive MsgType where
  | MESSAGE
  | STATUS
  | ITERATOR
  deriving DecidableEq, Repr

/-- The `status` field of `rdf_flows.GrrStatus(msg.payload)`: the code only
distinguishes `CLIENT_KILLED` from everything else. -/
inductive StatusKind where
  | OK
  | CLIENT_KILLED
  | GENERIC_ERROR
  deriving DecidableEq, Repr

/-- A session id: `FlowName()` extracts the flow name component; the whole
value is the grouping key in `ReceiveMessages`. -/
structure SessionId where
  base : String
  flowName : String
  deriving DecidableEq, Repr

/-- `rdf_flows.GrrMessage`, restricted to the fields the frontend reads or
writes.  The `payload` of a STATUS message is modelled by its parsed
`GrrStatus.status` value. -/
structure GrrMessage where
  session_id : SessionId
  request_id : Nat
  response_id : Nat
  task_id : Nat
  task_ttl : Int
  priority : Nat
  type : MsgType
  payloadStatus : StatusKind
  deriving DecidableEq, Repr

/-- Observable side effects of the frontend, in program order.  `setClock`,
`setPing`, `setClientIP` are in-memory `client.Set(...)` calls on the
AgentRecord; only `flush` sends pending attribute writes to the object
store. -/
inductive Effect where
  | setClientIP (ip : String)
  | setClock (t : Nat)
  | setPing (t : Nat)
  | flush
  | incrCounter (name : String)
  | queueResponse (sid : SessionId) (m : GrrMessage)
  | queueNotification (sid : SessionId) (priority : Nat) (last_status : Option Nat)
  | deQueueClientRequest (client : Nat) (task_id : Nat)
  | publishClientCrash (m : GrrMessage)
  | queryAndOwned (queue : Nat) (limit : Int)
  | schedule (tasks : List GrrMessage)
  | processMessages (flowName : String) (msgs : List GrrMessage)
  | encodeMessages (jobs : List GrrMessage)
  deriving DecidableEq, Repr

/-- `rdfvalue.Duration("1h")` in microseconds. -/
def oneHour : Int := 3600000000

/-! ## ServerCommunicator.VerifyMessageSignature -/

/-- Points inside the `try:` block of `VerifyMessageSignature` where the
object store may raise `communicator.UnknownClientCert`: the
`aff4.FACTORY.Create` call, the `client.Get(CLOCK)` read, the
`client.Get(LABELS)` read, and the final `client.Flush`. -/
inductive FailPoint where
  | create
  | getClock
  | getLabels
  | flush
  deriving DecidableEq, Repr

/-- Inputs of one `VerifyMessageSignature` call.  `cipherSigOk` is the
oracle for `cipher.VerifyCipherSignature(remote_public_key)`;
`recordClock` is the persisted CLOCK of the agent (`None` on first
contact); `timestamp` is `signed_message_list.timestamp`; `nowTime` is the
server wall clock used for PING; `failAt` says which store operation (if
any) raises `UnknownClientCert`. -/
structure VmsInput where
  cipher_verified : Bool
  cipherSigOk : Bool
  source_ip : String
  timestamp : Option Nat
  recordClock : Option Nat
  nowTime : Nat
  labels : List String
  failAt : Option FailPoint
  deriving Repr

/-- Result of `VerifyMessageSignature`: the returned authorization state,
the trace of effects performed, and whether an `UnknownClientCert` was
raised (and swallowed) inside the `try:` block. -/
structure VmsResult where
  state : AuthState
  trace : List Effect
  raised : Bool
  deriving Repr

/-- The tail of `VerifyMessageSignature` from `client.Flush(sync=False)` on:
if the flush raises, the exception is swallowed and no flush is persisted;
either way the function returns AUTHENTICATED. -/
def vmsFinish (inp : VmsInput) (eff : List Effect) : VmsResult :=
  if inp.failAt = some FailPoint.flush then
    ⟨AuthState.AUTHENTICATED, eff, true⟩
  else
    ⟨AuthState.AUTHENTICATED, eff ++ [Effect.flush], false⟩

/-- `ServerCommunicator.VerifyMessageSignature` (front_end.py lines
68-146).  The cipher-signature gate returns UNAUTHENTICATED; inside the
`try:` block the record is opened, CLIENT_IP is set, the replay window is
checked against the persisted CLOCK, CLOCK/PING advance only when the
agent's timestamp moves forward, and any `UnknownClientCert` is swallowed
with the list still classified AUTHENTICATED. -/
def verifyMessageSignature (inp : VmsInput) : VmsResult :=
  if !inp.cipher_verified && !inp.cipherSigOk then
    ⟨AuthState.UNAUTHENTICATED, [Effect.incrCounter "grr_unauthenticated_messages"], false⟩
  else if inp.failAt = some FailPoint.create then
    -- aff4.FACTORY.Create raised; swallowed by `except UnknownClientCert: pass`.
    ⟨AuthState.AUTHENTICATED, [], true⟩
  else
    let eff₁ := [Effect.setClientIP inp.source_ip]
    if inp.failAt = some FailPoint.getClock then
      ⟨AuthState.AUTHENTICATED, eff₁, true⟩
    else
      -- `remote_time = client.Get(client.Schema.CLOCK) or 0`
      let remote_time : Nat := inp.recordClock.getD 0
      -- `client_time = signed_message_list.timestamp or 0`
      let client_time : Nat := inp.timestamp.getD 0
      if (client_time : Int) < (remote_time : Int) - oneHour then
        ⟨AuthState.DESYNCHRONIZED, eff₁, false⟩
      else
        let eff₂ := eff₁ ++ [Effect.incrCounter "grr_authenticated_messages"]
        if client_time > remote_time then
          let eff₃ := eff₂ ++ [Effect.setClock client_time, Effect.setPing inp.nowTime]
          if inp.failAt = some FailPoint.getLabels then
            ⟨AuthState.AUTHENTICATED, eff₃, true⟩
          else
            vmsFinish inp
              (eff₃ ++ inp.labels.map (fun l => Effect.incrCounter ("client_pings_by_label:" ++ l)))
        else
          vmsFinish inp eff₂

/-- The CLOCK value the trace leaves behind, starting from the persisted
value coalesced with 0 (mirroring `or 0`). -/
def clockAfter (init : Nat) (tr : List Effect) : Nat :=
  tr.foldl (fun c e => match e with | Effect.setClock t => t | _ => c) init

/-! ## FrontEndServer.DrainTaskSchedulerQueueForClient -/

/-- `FrontEndServer.DrainTaskSchedulerQueueForClient` (lines 334-390).
`initial_ttl` is `rdf_flows.GrrMessage().task_ttl` (a default of the
message type, outside this file); `statusFound` is the oracle for
`manager.MultiCheckStatus` membership; `new_tasks` is what
`QueryAndOwn(queue, limit := max_count)` returned.  Returns the batch and
the effect trace; with `max_count ≤ 0` the function returns before ever
touching the queue store. -/
def drainTaskSchedulerQueueForClient (initial_ttl : Int)
    (statusFound : GrrMessage → Bool) (clientQueue : Nat) (max_count : Int)
    (new_tasks : List GrrMessage) : List GrrMessage × List Effect :=
  if max_count ≤ 0 then ([], [])
  else
    -- `if task.task_ttl < initial_ttl - 1: check_before_sending else: result`
    let check_before_sending := new_tasks.filter (fun t => t.task_ttl < initial_ttl - 1)
    let fresh := new_tasks.filter (fun t => !(t.task_ttl < initial_ttl - 1))
    -- re-leased tasks without a recorded status are sent again; the rest
    -- are dequeued from the client queue
    let resend := check_before_sending.filter (fun t => !statusFound t)
    let dequeued := check_before_sending.filter (fun t => statusFound t)
    (fresh ++ resend,
      Effect.queryAndOwned clientQueue max_count ::
        dequeued.map (fun t => Effect.deQueueClientRequest clientQueue t.task_id) ++
        [Effect.incrCounter "grr_messages_sent"])

/-! ## FrontEndServer.HandleWellKnownFlows -/

/-- `FrontEndServer.HandleWellKnownFlows` (lines 449-486), with the PRNG
(`utils.PRNG.GetULong`, outside this file) passed in as a stream `prng`
consumed left to right starting at index `k`.  Returns the messages to be
queued (`result` in the source), the well-known messages collected for
dispatch paired with their flow name, and the next unused PRNG index. -/
def handleWKF (wkf : List String) (prng : Nat → Nat) :
    Nat → List GrrMessage → List GrrMessage × List (String × GrrMessage) × Nat
  | k, [] => ([], [], k)
  | k, m :: rest =>
    if m.response_id ≠ 0 then
      -- Regular message - queue it.
      let p := handleWKF wkf prng k rest
      (m :: p.1, p.2.1, p.2.2)
    else if m.session_id.flowName ∈ wkf then
      -- processed directly on the front end
      let p := handleWKF wkf prng k rest
      (p.1, (m.session_id.flowName, m) :: p.2.1, p.2.2)
    else
      -- `msg.response_id = utils.PRNG.GetULong()` then queue it
      let p := handleWKF wkf prng (k + 1) rest
      ({ m with response_id := prng k } :: p.1, p.2.1, p.2.2)

/-- Group the collected well-known messages by flow name, preserving
first-seen name order and per-name message order (the
`msgs_by_wkf.setdefault(...).append(...)` dict). -/
def insertByName (acc : List (String × List GrrMessage)) (p : String × GrrMessage) :
    List (String × List GrrMessage) :=
  match acc with
  | [] => [(p.1, [p.2])]
  | (n, ms) :: rest =>
    if n = p.1 then (n, ms ++ [p.2]) :: rest else (n, ms) :: insertByName rest p

/-- The `wkf.ProcessMessages(msg_list)` dispatch effects at the end of
`HandleWellKnownFlows`. -/
def wkfDispatchEffects (pairs : List (String × GrrMessage)) : List Effect :=
  (pairs.foldl insertByName []).map (fun p => Effect.processMessages p.1 p.2)

/-! ## FrontEndServer.ReceiveMessages -/

/-- The notification loop over one session's unprocessed messages (lines
422-444): a message with `request_id == 0` emits one plain notification
and breaks out of the loop; a STATUS message dequeues its task, emits a
notification carrying `last_status = request_id` and publishes a
ClientCrash event when the status payload is CLIENT_KILLED. -/
def notifyLoop (client_id : Nat) : List GrrMessage → List Effect
  | [] => []
  | m :: rest =>
    if m.request_id = 0 then
      -- one notification is enough; `break`
      [Effect.queueNotification m.session_id m.priority none]
    else if m.type = MsgType.STATUS then
      Effect.deQueueClientRequest client_id m.task_id ::
        Effect.queueNotification m.session_id m.priority (some m.request_id) ::
        (if m.payloadStatus = StatusKind.CLIENT_KILLED then
          [Effect.publishClientCrash m] else []) ++
        notifyLoop client_id rest
    else
      notifyLoop client_id rest

/-- One iteration of the per-session loop of `ReceiveMessages`: hand off
well-known messages, then queue each remaining message as a response and
run the notification loop. -/
def processGroup (wkf : List String) (prng : Nat → Nat) (client_id : Nat)
    (k : Nat) (sid : SessionId) (msgs : List GrrMessage) : List Effect × Nat :=
  let p := handleWKF wkf prng k msgs
  let dispatch := wkfDispatchEffects p.2.1
  if p.1 = [] then (dispatch, p.2.2)
  else
    (dispatch ++ p.1.map (fun m => Effect.queueResponse sid m) ++
      notifyLoop client_id p.1, p.2.2)

/-- `utils.GroupBy(messages, "session_id")`: association list keyed by
session id, first-seen key order, per-key order preserved. -/
def insertGrouped (acc : List (SessionId × List GrrMessage)) (m : GrrMessage) :
    List (SessionId × List GrrMessage) :=
  match acc with
  | [] => [(m.session_id, [m])]
  | (sid, ms) :: rest =>
    if sid = m.session_id then (sid, ms ++ [m]) :: rest
    else (sid, ms) :: insertGrouped rest m

/-- Grouping of the inbound messages by session id. -/
def groupBySession (msgs : List GrrMessage) : List (SessionId × List GrrMessage) :=
  msgs.foldl insertGrouped []

/-- The per-session loop of `ReceiveMessages` over the grouped messages,
threading the PRNG index. -/
def receiveGroups (wkf : List String) (prng : Nat → Nat) (client_id : Nat) :
    Nat → List (SessionId × List GrrMessage) → List Effect
  | _, [] => []
  | k, (sid, msgs) :: rest =>
    let p := processGroup wkf prng client_id k sid msgs
    p.1 ++ receiveGroups wkf prng client_id p.2 rest

/-- `FrontEndServer.ReceiveMessages` (lines 392-447). -/
def receiveMessages (wkf : List String) (prng : Nat → Nat) (client_id : Nat)
    (msgs : List GrrMessage) : List Effect :=
  receiveGroups wkf prng client_id 0 (groupBySession msgs)

/-! ## FrontEndServer.HandleMessageBundles -/

/-- Inputs of one `HandleMessageBundles` call, after `DecodeMessages`
succeeded.  `shouldThrottle` is the outcome of
`UpdateAndCheckIfShouldThrottle(time.time())` (the throttler itself is
modelled separately below), `throttleCallbackAdmit` the external
`throttle_callback()`, `withinTimeBudget` the `time.time() - now < 10`
check, and `encodeRaisesUnknownSource` whether `EncodeMessages` raises
`UnknownClientCert`.  `newTasks`/`statusFound`/`initial_ttl` are the drain
oracles. -/
structure BundleInput where
  messages : List GrrMessage
  source : Nat
  queue_size : Int
  max_queue_size : Int
  shouldThrottle : Bool
  throttleCallbackAdmit : Bool
  withinTimeBudget : Bool
  encodeRaisesUnknownSource : Bool
  initial_ttl : Int
  statusFound : GrrMessage → Bool
  newTasks : List GrrMessage
  wkf : List String
  prng : Nat → Nat

/-- The ingest phase of `HandleMessageBundles`: `ReceiveMessages` runs
inline whenever decode produced messages, before any throttling decision. -/
def bundleIngestEffects (inp : BundleInput) : List Effect :=
  if inp.messages = [] then []
  else receiveMessages inp.wkf inp.prng inp.source inp.messages

/-- `required_count = max(0, self.max_queue_size - request_comms.queue_size)`. -/
def bundleRequired (inp : BundleInput) : Int :=
  max 0 (inp.max_queue_size - inp.queue_size)

/-- The egress decision of `HandleMessageBundles` (lines 300-316): the
drained task list together with the effects of the egress phase. -/
def bundleEgress (inp : BundleInput) : List GrrMessage × List Effect :=
  if inp.shouldThrottle then
    ([], [Effect.incrCounter "grr_frontendserver_handle_throttled_num"])
  else if inp.throttleCallbackAdmit then
    if inp.withinTimeBudget then
      drainTaskSchedulerQueueForClient inp.initial_ttl inp.statusFound inp.source
        (bundleRequired inp) inp.newTasks
    else ([], [])
  else
    ([], [Effect.incrCounter "grr_frontendserver_handle_throttled_num"])

/-- The tasks drained for this bundle (`tasks` in the source). -/
def bundleTasks (inp : BundleInput) : List GrrMessage :=
  (bundleEgress inp).1

/-- `FrontEndServer.HandleMessageBundles` (lines 274-332), from the point
where `DecodeMessages` has succeeded.  On `UnknownClientCert` from
`EncodeMessages`, the drained tasks are rescheduled and the exception
propagates; otherwise the call returns `(source, len(messages))`. -/
def handleMessageBundles (inp : BundleInput) :
    Except String (Nat × Nat) × List Effect :=
  let eff := bundleIngestEffects inp ++ (bundleEgress inp).2
  if inp.encodeRaisesUnknownSource then
    (Except.error "UnknownClientCert",
      eff ++ [Effect.schedule (bundleTasks inp)])
  else
    (Except.ok (inp.source, inp.messages.length),
      eff ++ [Effect.encodeMessages (bundleTasks inp)])

/-! ## FrontEndServer.UpdateAndCheckIfShouldThrottle -/

/-- The throttler's mutable state: `throttle_bundles_ratio`,
`handled_bundles` and `last_not_throttled_bundle_time`.  Times and the
ratio are exact rationals standing for the Python floats. -/
structure ThrottleState where
  ratio : Option ℚ
  handled_bundles : List ℚ
  last_not_throttled_bundle_time : ℚ
  deriving Repr

/-- `FrontEndServer.SetThrottleBundlesRatio` (lines 205-222): a `None`
ratio resets the window and the last-admitted time. -/
def setThrottleBundlesRatio (s : ThrottleState) (r : Option ℚ) : ThrottleState :=
  match r with
  | none => ⟨none, [], 0⟩
  | some q => { s with ratio := some q }

/-- The throttler state right after `FrontEndServer.__init__` (which calls
`SetThrottleBundlesRatio(None)`). -/
def initThrottleState : ThrottleState := ⟨none, [], 0⟩

/-- The window kept by one throttler call: append `bundle_time`, then keep
the suffix from the first entry strictly newer than
`bundle_time - windowCfg` (`Frontend.throttle_average_interval`); if no
entry qualifies the window empties. -/
def prunedWindow (windowCfg : ℚ) (hb : List ℚ) (bundle_time : ℚ) : List ℚ :=
  (hb ++ [bundle_time]).dropWhile (fun v => v ≤ bundle_time - windowCfg)

/-- `FrontEndServer.UpdateAndCheckIfShouldThrottle` (lines 224-270),
returning the decision and the updated state.  `0.1e-6` is the literal
`max(0.1e-6, float(ratio))` floor. -/
def updateAndCheckIfShouldThrottle (windowCfg : ℚ) (s : ThrottleState)
    (bundle_time : ℚ) : Bool × ThrottleState :=
  match s.ratio with
  | none => (false, s)
  | some r =>
    let hb := prunedWindow windowCfg s.handled_bundles bundle_time
    let blen := hb.length
    if blen > 1 then
      let interval : ℚ := (hb.getLastD 0 - hb.headD 0) / (blen - 1 : ℚ)
      let should_throttle :=
        bundle_time - s.last_not_throttled_bundle_time < interval / max (1 / 10000000 : ℚ) r
      if should_throttle then
        (true, { s with handled_bundles := hb })
      else
        (false, { s with handled_bundles := hb,
                         last_not_throttled_bundle_time := bundle_time })
    else
      (decide (r = 0), { s with handled_bundles := hb })

/-! ## Helper lemmas -/

theorem clockAfter_append (init : Nat) (l₁ l₂ : List Effect) :
    clockAfter init (l₁ ++ l₂) = clockAfter (clockAfter init l₁) l₂ :=
  List.foldl_append _ _ _ _

theorem clockAfter_nil (init : Nat) : clockAfter init [] = init := rfl

theorem clockAfter_cons (init : Nat) (e : Effect) (l : List Effect) :
    clockAfter init (e :: l) =
      clockAfter (match e with | Effect.setClock t => t | _ => init) l := rfl

theorem clockAfter_counters (init : Nat) (ls : List String) :
    clockAfter init (ls.map (fun l => Effect.incrCounter ("client_pings_by_label:" ++ l)))
      = init := by
  induction ls with
  | nil => rfl
  | cons x xs ih => simpa [clockAfter, List.foldl] using ih

theorem setClock_not_mem_counters (t : Nat) (ls : List String) :
    Effect.setClock t ∉
      ls.map (fun l => Effect.incrCounter ("client_pings_by_label:" ++ l)) := by
  simp [List.mem_map]

theorem setPing_not_mem_counters (t : Nat) (ls : List String) :
    Effect.setPing t ∉
      ls.map (fun l => Effect.incrCounter ("client_pings_by_label:" ++ l)) := by
  simp [List.mem_map]

theorem flush_not_mem_counters (ls : List String) :
    Effect.flush ∉
      ls.map (fun l => Effect.incrCounter ("client_pings_by_label:" ++ l)) := by
  simp [List.mem_map]

/-! ## Claims about VerifyMessageSignature -/

/-- A bundle that passes the cipher gate but whose timestamp is far older
than the persisted CLOCK (CLOCK = 10^10 μs, timestamp = 10^6 μs, gap well
over one hour). -/
def desyncInput : VmsInput :=
  { cipher_verified := false, cipherSigOk := true, source_ip := "10.0.0.1",
    timestamp := some 1000000, recordClock := some 10000000000,
    nowTime := 20000000000, labels := [], failAt := none }

/-- C1 counterexample: on the DESYNCHRONIZED path the code has already
executed `client.Set(client.Schema.CLIENT_IP(ip))` (line 105 precedes the
replay check at line 121), so an attribute of the AgentRecord is written,
contradicting the claim that no attribute including CLIENT_IP is written. -/
theorem C1_counterexample :
    (verifyMessageSignature desyncInput).state = AuthState.DESYNCHRONIZED ∧
    Effect.setClientIP "10.0.0.1" ∈ (verifyMessageSignature desyncInput).trace := by
  constructor <;> decide

/-- C1 (amended): for every inbound bundle that passes the cipher gate,
whose record operations do not raise, and whose timestamp is more than one
hour older than the persisted CLOCK, `VerifyMessageSignature` returns
DESYNCHRONIZED, writes neither CLOCK nor PING, and performs no flush (so
nothing is persisted); the only record write on that path is the in-memory
CLIENT_IP set that precedes the check. -/
theorem C1_desync_no_mutation (inp : VmsInput)
    (hgate : inp.cipher_verified = true ∨ inp.cipherSigOk = true)
    (hfail : inp.failAt = none)
    (hold : (inp.timestamp.getD 0 : Int) < (inp.recordClock.getD 0 : Int) - oneHour) :
    (verifyMessageSignature inp).state = AuthState.DESYNCHRONIZED ∧
    (verifyMessageSignature inp).trace = [Effect.setClientIP inp.source_ip] ∧
    (∀ t, Effect.setClock t ∉ (verifyMessageSignature inp).trace) ∧
    (∀ t, Effect.setPing t ∉ (verifyMessageSignature inp).trace) ∧
    Effect.flush ∉ (verifyMessageSignature inp).trace := by
  have hg : (!inp.cipher_verified && !inp.cipherSigOk) = false := by
    rcases hgate with h | h <;> simp [h]
  simp [verifyMessageSignature, hg, hfail, hold]

/-- Witness for C1_desync_no_mutation at `desyncInput`. -/
theorem C1_desync_no_mutation_witness :
    (verifyMessageSignature desyncInput).state = AuthState.DESYNCHRONIZED ∧
    (verifyMessageSignature desyncInput).trace = [Effect.setClientIP "10.0.0.1"] ∧
    (∀ t, Effect.setClock t ∉ (verifyMessageSignature desyncInput).trace) ∧
    (∀ t, Effect.setPing t ∉ (verifyMessageSignature desyncInput).trace) ∧
    Effect.flush ∉ (verifyMessageSignature desyncInput).trace :=
  C1_desync_no_mutation desyncInput (Or.inr rfl) rfl (by decide)

/-- C2: on the authenticated path (cipher gate passed, no store exception,
timestamp inside the replay window) the CLOCK after the call is
`max(CLOCK before, timestamp)`, CLOCK and PING are both written exactly
when the timestamp moves forward, and an in-window bundle with
`timestamp ≤ CLOCK` is accepted without any CLOCK or PING write. -/
theorem C2_clock_advance (inp : VmsInput)
    (hgate : inp.cipher_verified = true ∨ inp.cipherSigOk = true)
    (hfail : inp.failAt = none)
    (hwin : ¬ ((inp.timestamp.getD 0 : Int) < (inp.recordClock.getD 0 : Int) - oneHour)) :
    (verifyMessageSignature inp).state = AuthState.AUTHENTICATED ∧
    clockAfter (inp.recordClock.getD 0) (verifyMessageSignature inp).trace
      = max (inp.recordClock.getD 0) (inp.timestamp.getD 0) ∧
    (inp.timestamp.getD 0 > inp.recordClock.getD 0 →
      Effect.setClock (inp.timestamp.getD 0) ∈ (verifyMessageSignature inp).trace ∧
      Effect.setPing inp.nowTime ∈ (verifyMessageSignature inp).trace) ∧
    (inp.timestamp.getD 0 ≤ inp.recordClock.getD 0 →
      (∀ t, Effect.setClock t ∉ (verifyMessageSignature inp).trace) ∧
      (∀ t, Effect.setPing t ∉ (verifyMessageSignature inp).trace)) := by
  have hg : (!inp.cipher_verified && !inp.cipherSigOk) = false := by
    rcases hgate with h | h <;> simp [h]
  by_cases hadv : inp.recordClock.getD 0 < inp.timestamp.getD 0
  · have hst : (verifyMessageSignature inp).state = AuthState.AUTHENTICATED := by
      simp [verifyMessageSignature, vmsFinish, hg, hfail, hwin, hadv]
    have htr : (verifyMessageSignature inp).trace =
        Effect.setClientIP inp.source_ip ::
        Effect.incrCounter "grr_authenticated_messages" ::
        Effect.setClock (inp.timestamp.getD 0) :: Effect.setPing inp.nowTime ::
        (inp.labels.map (fun l => Effect.incrCounter ("client_pings_by_label:" ++ l)) ++
          [Effect.flush]) := by
      simp [verifyMessageSignature, vmsFinish, hg, hfail, hwin, hadv]
    refine ⟨hst, ?_, fun _ => ⟨?_, ?_⟩, fun hle => absurd hadv (not_lt.mpr hle)⟩
    · rw [htr]
      simp only [clockAfter_cons, clockAfter_append, clockAfter_counters, clockAfter_nil]
      exact (Nat.max_eq_right (le_of_lt hadv)).symm
    · rw [htr]; simp
    · rw [htr]; simp
  · have hst : (verifyMessageSignature inp).state = AuthState.AUTHENTICATED := by
      simp [verifyMessageSignature, vmsFinish, hg, hfail, hwin, hadv]
    have htr : (verifyMessageSignature inp).trace =
        [Effect.setClientIP inp.source_ip,
          Effect.incrCounter "grr_authenticated_messages", Effect.flush] := by
      simp [verifyMessageSignature, vmsFinish, hg, hfail, hwin, hadv]
    refine ⟨hst, ?_, fun h => absurd h hadv, fun _ => ⟨?_, ?_⟩⟩
    · rw [htr]
      simp only [clockAfter_cons, clockAfter_nil]
      exact (Nat.max_eq_left (not_lt.mp hadv)).symm
    · rw [htr]; intro t; simp
    · rw [htr]; intro t; simp

/-- A normal in-window bundle that advances the clock. -/
def advanceInput : VmsInput :=
  { cipher_verified := true, cipherSigOk := true, source_ip := "10.0.0.2",
    timestamp := some 2000000, recordClock := some 1000000,
    nowTime := 5000000, labels := ["foo"], failAt := none }

/-- Witness for C2_clock_advance at `advanceInput`. -/
theorem C2_clock_advance_witness :
    (verifyMessageSignature advanceInput).state = AuthState.AUTHENTICATED ∧
    clockAfter 1000000 (verifyMessageSignature advanceInput).trace = max 1000000 2000000 ∧
    (2000000 > 1000000 →
      Effect.setClock 2000000 ∈ (verifyMessageSignature advanceInput).trace ∧
      Effect.setPing 5000000 ∈ (verifyMessageSignature advanceInput).trace) ∧
    (2000000 ≤ 1000000 →
      (∀ t, Effect.setClock t ∉ (verifyMessageSignature advanceInput).trace) ∧
      (∀ t, Effect.setPing t ∉ (verifyMessageSignature advanceInput).trace)) :=
  C2_clock_advance advanceInput (Or.inl rfl) rfl (by decide)

/-- C10: whenever a store operation inside the `try:` block of
`VerifyMessageSignature` raises `UnknownClientCert`, the exception is
swallowed, the message list is still classified AUTHENTICATED, and no
flush reaches the store, so no CLOCK, PING or CLIENT_IP update is
persisted. -/
theorem C10_unknown_cert_swallowed (inp : VmsInput)
    (h : (verifyMessageSignature inp).raised = true) :
    (verifyMessageSignature inp).state = AuthState.AUTHENTICATED ∧
    Effect.flush ∉ (verifyMessageSignature inp).trace := by
  by_cases hg : (!inp.cipher_verified && !inp.cipherSigOk) = true
  · exact absurd h (by simp [verifyMessageSignature, hg])
  · replace hg : (!inp.cipher_verified && !inp.cipherSigOk) = false := by simpa using hg
    by_cases h₁ : inp.failAt = some FailPoint.create
    · constructor <;> simp [verifyMessageSignature, hg, h₁]
    · by_cases h₂ : inp.failAt = some FailPoint.getClock
      · constructor <;> simp [verifyMessageSignature, hg, h₁, h₂]
      · by_cases hdes :
            ((inp.timestamp.getD 0 : Int) < (inp.recordClock.getD 0 : Int) - oneHour)
        · exact absurd h (by simp [verifyMessageSignature, hg, h₁, h₂, hdes])
        · by_cases hadv : inp.recordClock.getD 0 < inp.timestamp.getD 0
          · by_cases h₃ : inp.failAt = some FailPoint.getLabels
            · constructor <;> simp [verifyMessageSignature, hg, h₁, h₂, hdes, hadv, h₃]
            · by_cases h₄ : inp.failAt = some FailPoint.flush
              · constructor <;>
                  simp [verifyMessageSignature, vmsFinish, hg, h₁, h₂, hdes, hadv, h₃, h₄,
                    flush_not_mem_counters]
              · exact absurd h (by
                  simp [verifyMessageSignature, vmsFinish, hg, h₁, h₂, hdes, hadv, h₃, h₄])
          · by_cases h₄ : inp.failAt = some FailPoint.flush
            · constructor <;>
                simp [verifyMessageSignature, vmsFinish, hg, h₁, h₂, hdes, hadv, h₄]
            · exact absurd h (by
                simp [verifyMessageSignature, vmsFinish, hg, h₁, h₂, hdes, hadv, h₄])

/-- Witness for C10_unknown_cert_swallowed: the record fetch raises. -/
theorem C10_unknown_cert_swallowed_witness :
    (verifyMessageSignature { desyncInput with failAt := some FailPoint.create }).state
        = AuthState.AUTHENTICATED ∧
    Effect.flush ∉
      (verifyMessageSignature { desyncInput with failAt := some FailPoint.create }).trace :=
  C10_unknown_cert_swallowed _ (by decide)

/-! ## Claims about DrainTaskSchedulerQueueForClient -/

theorem drain_length_le (b s : GrrMessage → Bool) (l : List GrrMessage) :
    ((l.filter (fun t => !b t)) ++ ((l.filter b).filter (fun t => !s t))).length
      ≤ l.length := by
  induction l with
  | nil => simp
  | cons a l ih =>
    by_cases hb : b a <;> by_cases hs : s a <;>
      simp_all [List.filter_cons, List.length_append] <;> omega

/-- A task that has been leased exactly once before: with initial ttl 7 the
queue hands it back with `task_ttl = 6`. -/
def onceLeasedTask : GrrMessage :=
  { session_id := ⟨"C.1000000000000000/flows/F:1", "F"⟩, request_id := 5,
    response_id := 7, task_id := 42, task_ttl := 6, priority := 1,
    type := MsgType.MESSAGE, payloadStatus := StatusKind.OK }

/-- C3 counterexample: with initial ttl 7, a leased task with
`task_ttl = 6` is strictly below the initial maximum and has a recorded
completion status, yet `DrainTaskSchedulerQueueForClient` still forwards it
(the code's cutoff is `task_ttl < initial_ttl - 1`) and never dequeues it. -/
theorem C3_counterexample :
    onceLeasedTask.task_ttl < 7 ∧
    (drainTaskSchedulerQueueForClient 7 (fun _ => true) 3 10 [onceLeasedTask]).1
      = [onceLeasedTask] ∧
    Effect.deQueueClientRequest 3 onceLeasedTask.task_id ∉
      (drainTaskSchedulerQueueForClient 7 (fun _ => true) 3 10 [onceLeasedTask]).2 := by
  decide

/-- C3 (amended): every leased task whose `task_ttl` is at least
`initial_ttl - 1` (the initial maximum less the decrement of the current
lease) is included in the returned batch; every leased task whose
`task_ttl` is strictly below `initial_ttl - 1` and for which a completion
status is recorded is excluded from the batch and dequeued from the
agent's outbound queue. -/
theorem C3_drain_partition (initial_ttl : Int) (statusFound : GrrMessage → Bool)
    (q : Nat) (max_count : Int) (new_tasks : List GrrMessage)
    (hpos : 0 < max_count) (t : GrrMessage) (ht : t ∈ new_tasks) :
    (¬ t.task_ttl < initial_ttl - 1 →
      t ∈ (drainTaskSchedulerQueueForClient initial_ttl statusFound q max_count
            new_tasks).1) ∧
    (t.task_ttl < initial_ttl - 1 → statusFound t = true →
      t ∉ (drainTaskSchedulerQueueForClient initial_ttl statusFound q max_count
            new_tasks).1 ∧
      Effect.deQueueClientRequest q t.task_id ∈
        (drainTaskSchedulerQueueForClient initial_ttl statusFound q max_count
          new_tasks).2) := by
  have hc : ¬ max_count ≤ 0 := not_le.mpr hpos
  constructor
  · intro hfresh
    simp [drainTaskSchedulerQueueForClient, hc, List.mem_append, List.mem_filter, ht, hfresh]
  · intro hrel hstat
    constructor
    · simp [drainTaskSchedulerQueueForClient, hc, List.mem_append, List.mem_filter,
        hrel, hstat]
    · rw [drainTaskSchedulerQueueForClient, if_neg hc]
      refine List.mem_cons_of_mem _ (List.mem_append_left _ ?_)
      exact List.mem_map.mpr
        ⟨t, List.mem_filter.mpr
          ⟨List.mem_filter.mpr ⟨ht, by simpa using hrel⟩, hstat⟩, rfl⟩

/-- Witness for C3_drain_partition: a fresh task (ttl 6 with initial 7) is
forwarded. -/
theorem C3_drain_partition_witness :
    (¬ onceLeasedTask.task_ttl < 7 - 1 →
      onceLeasedTask ∈
        (drainTaskSchedulerQueueForClient 7 (fun _ => false) 3 10 [onceLeasedTask]).1) ∧
    (onceLeasedTask.task_ttl < 7 - 1 → (fun (_ : GrrMessage) => false) onceLeasedTask = true →
      onceLeasedTask ∉
        (drainTaskSchedulerQueueForClient 7 (fun _ => false) 3 10 [onceLeasedTask]).1 ∧
      Effect.deQueueClientRequest 3 onceLeasedTask.task_id ∈
        (drainTaskSchedulerQueueForClient 7 (fun _ => false) 3 10 [onceLeasedTask]).2) :=
  C3_drain_partition 7 (fun _ => false) 3 10 [onceLeasedTask] (by decide)
    onceLeasedTask (by decide)

/-- C4: provided `QueryAndOwn` honors its `limit` argument, the batch
returned by `DrainTaskSchedulerQueueForClient` for
`max_count = max(0, max_queue_size - queue_size)` has at most that many
elements, and when the bound is zero (`queue_size ≥ max_queue_size`) the
call returns the empty list with no effect at all — the queue store is
never queried or leased from. -/
theorem C4_drain_bound (initial_ttl : Int) (statusFound : GrrMessage → Bool)
    (q : Nat) (max_queue_size queue_size : Int) (new_tasks : List GrrMessage)
    (hlim : (new_tasks.length : Int) ≤ max 0 (max_queue_size - queue_size)) :
    (((drainTaskSchedulerQueueForClient initial_ttl statusFound q
        (max 0 (max_queue_size - queue_size)) new_tasks).1.length : Int)
      ≤ max 0 (max_queue_size - queue_size)) ∧
    (max_queue_size ≤ queue_size →
      drainTaskSchedulerQueueForClient initial_ttl statusFound q
        (max 0 (max_queue_size - queue_size)) new_tasks = ([], [])) := by
  constructor
  · by_cases hm : max 0 (max_queue_size - queue_size) ≤ 0
    · simp [drainTaskSchedulerQueueForClient, hm]
    · rw [drainTaskSchedulerQueueForClient, if_neg hm]
      refine le_trans ?_ hlim
      have h1 := drain_length_le (fun t => decide (t.task_ttl < initial_ttl - 1))
        statusFound new_tasks
      exact_mod_cast h1
  · intro hle
    have h0 : max 0 (max_queue_size - queue_size) ≤ 0 :=
      le_of_eq (max_eq_left (by omega))
    simp [drainTaskSchedulerQueueForClient, h0]

/-- Witness for C4_drain_bound: an agent reporting a full queue
(`queue_size = 60 ≥ max_queue_size = 50`) gets an empty drain with no
queue-store access. -/
theorem C4_drain_bound_witness :
    ((((drainTaskSchedulerQueueForClient 7 (fun _ => false) 3
        (max 0 (50 - 60)) []).1.length : Int) ≤ max 0 (50 - 60)) ∧
    ((50 : Int) ≤ 60 →
      drainTaskSchedulerQueueForClient 7 (fun _ => false) 3
        (max 0 (50 - 60)) [] = ([], []))) :=
  C4_drain_bound 7 (fun _ => false) 3 50 60 [] (by decide)

/-! ## Claims about ReceiveMessages -/

/-- Messages that already carry a non-zero response id pass through
`HandleWellKnownFlows` untouched and consume no PRNG values. -/
theorem handleWKF_all_nonzero (wkf : List String) (prng : Nat → Nat)
    (msgs : List GrrMessage) (h : ∀ x ∈ msgs, x.response_id ≠ 0) :
    ∀ k, handleWKF wkf prng k msgs = (msgs, [], k) := by
  induction msgs with
  | nil => intro k; rfl
  | cons m rest ih =>
    intro k
    have hm := h m (List.mem_cons_self m rest)
    have hr : ∀ x ∈ rest, x.response_id ≠ 0 := fun x hx => h x (List.mem_cons_of_mem m hx)
    simp [handleWKF, hm, ih hr]

theorem foldl_insertGrouped_same (sid : SessionId) (msgs : List GrrMessage)
    (h : ∀ x ∈ msgs, x.session_id = sid) :
    ∀ pre, msgs.foldl insertGrouped [(sid, pre)] = [(sid, pre ++ msgs)] := by
  induction msgs with
  | nil => intro pre; simp
  | cons m rest ih =>
    intro pre
    have hm := h m (List.mem_cons_self m rest)
    have hr : ∀ x ∈ rest, x.session_id = sid := fun x hx => h x (List.mem_cons_of_mem m hx)
    have hins : insertGrouped [(sid, pre)] m = [(sid, pre ++ [m])] := by
      simp [insertGrouped, hm]
    rw [List.foldl_cons, hins, ih hr (pre ++ [m])]
    simp

/-- A batch of messages on a single session forms a single group. -/
theorem groupBySession_single (sid : SessionId) (msgs : List GrrMessage)
    (hne : msgs ≠ []) (h : ∀ x ∈ msgs, x.session_id = sid) :
    groupBySession msgs = [(sid, msgs)] := by
  cases msgs with
  | nil => exact absurd rfl hne
  | cons m rest =>
    have hm := h m (List.mem_cons_self m rest)
    have hr : ∀ x ∈ rest, x.session_id = sid := fun x hx => h x (List.mem_cons_of_mem m hx)
    have h0 : insertGrouped [] m = [(sid, [m])] := by simp [insertGrouped, hm]
    rw [groupBySession, List.foldl_cons, h0, foldl_insertGrouped_same sid rest hr [m]]
    simp

/-- Effects emitted by the notification loop for a STATUS message it
reaches (all messages in the group have a non-zero request id, so the
`break` branch never fires). -/
theorem notifyLoop_status_mem (c : Nat) (msgs : List GrrMessage)
    (hall : ∀ x ∈ msgs, x.request_id ≠ 0) (m : GrrMessage) (hm : m ∈ msgs)
    (hty : m.type = MsgType.STATUS) :
    Effect.deQueueClientRequest c m.task_id ∈ notifyLoop c msgs ∧
    Effect.queueNotification m.session_id m.priority (some m.request_id) ∈ notifyLoop c msgs ∧
    (m.payloadStatus = StatusKind.CLIENT_KILLED →
      Effect.publishClientCrash m ∈ notifyLoop c msgs) := by
  induction msgs with
  | nil => cases hm
  | cons a rest ih =>
    have h0 := hall a (List.mem_cons_self a rest)
    have hr : ∀ x ∈ rest, x.request_id ≠ 0 := fun x hx => hall x (List.mem_cons_of_mem a hx)
    rcases List.mem_cons.mp hm with rfl | hm'
    · refine ⟨?_, ?_, fun hk => ?_⟩
      · simp [notifyLoop, h0, hty]
      · simp [notifyLoop, h0, hty]
      · simp [notifyLoop, h0, hty, hk]
    · have ihr := ih hr hm'
      by_cases hat : a.type = MsgType.STATUS
      · by_cases hk : a.payloadStatus = StatusKind.CLIENT_KILLED
        · refine ⟨?_, ?_, fun hkm => ?_⟩
          · simp [notifyLoop, h0, hat, hk, ihr.1]
          · simp [notifyLoop, h0, hat, hk, ihr.2.1]
          · simp [notifyLoop, h0, hat, hk, ihr.2.2 hkm]
        · refine ⟨?_, ?_, fun hkm => ?_⟩
          · simp [notifyLoop, h0, hat, hk, ihr.1]
          · simp [notifyLoop, h0, hat, hk, ihr.2.1]
          · simp [notifyLoop, h0, hat, hk, ihr.2.2 hkm]
      · refine ⟨?_, ?_, fun hkm => ?_⟩
        · simp [notifyLoop, h0, hat, ihr.1]
        · simp [notifyLoop, h0, hat, ihr.2.1]
        · simp [notifyLoop, h0, hat, ihr.2.2 hkm]

/-- A ClientCrash event in the notification loop's trace always carries a
message whose status payload is CLIENT_KILLED. -/
theorem notifyLoop_crash_killed (c : Nat) (m : GrrMessage) :
    ∀ msgs, Effect.publishClientCrash m ∈ notifyLoop c msgs →
      m.payloadStatus = StatusKind.CLIENT_KILLED := by
  intro msgs
  induction msgs with
  | nil => simp [notifyLoop]
  | cons a rest ih =>
    intro h
    by_cases h0 : a.request_id = 0
    · simp [notifyLoop, h0] at h
    · by_cases hat : a.type = MsgType.STATUS
      · by_cases hk : a.payloadStatus = StatusKind.CLIENT_KILLED
        · simp only [notifyLoop, if_neg h0, if_pos hat, if_pos hk,
            List.singleton_append] at h
          rcases List.mem_cons.mp h with hc | h
          · exact absurd hc (by simp)
          rcases List.mem_cons.mp h with hc | h
          · exact absurd hc (by simp)
          rcases List.mem_cons.mp h with hc | h
          · have hma : m = a := by injection hc
            rw [hma]; exact hk
          · exact ih h
        · simp only [notifyLoop, if_neg h0, if_pos hat, if_neg hk,
            List.nil_append] at h
          rcases List.mem_cons.mp h with hc | h
          · exact absurd hc (by simp)
          rcases List.mem_cons.mp h with hc | h
          · exact absurd hc (by simp)
          · exact ih h
      · exact ih (by simpa [notifyLoop, h0, hat] using h)

/-- A STATUS message whose request id is 0 (a well-known-flow completion). -/
def statusZeroReq : GrrMessage :=
  { session_id := ⟨"C.1/F1:1", "F1"⟩, request_id := 0, response_id := 3,
    task_id := 42, task_ttl := 6, priority := 2, type := MsgType.STATUS,
    payloadStatus := StatusKind.OK }

/-- C5 counterexample: an ingested STATUS message with `request_id = 0`
takes the `request_id == 0` branch of `ReceiveMessages` (line 425), which
emits a plain notification and breaks — task 42 is never dequeued from the
agent's outbound queue. -/
theorem C5_counterexample :
    statusZeroReq.type = MsgType.STATUS ∧
    Effect.deQueueClientRequest 1 statusZeroReq.task_id ∉
      receiveMessages [] (fun _ => 9) 1 [statusZeroReq] := by
  decide

/-- C5 (amended): for every ingested STATUS message with a non-zero
request id, in a session group none of whose messages has request id 0
(the `break` branch never fires) and all of whose messages carry a
non-zero response id (none is consumed by well-known dispatch),
`ReceiveMessages` dequeues the message's task from the agent's outbound
queue, emits a notification on the message's session carrying
`last_status = request_id`, and publishes a ClientCrash event if and only
if the status payload is CLIENT_KILLED. -/
theorem C5_status_ingest (wkf : List String) (prng : Nat → Nat) (c : Nat)
    (sid : SessionId) (msgs : List GrrMessage) (m : GrrMessage)
    (hsid : ∀ x ∈ msgs, x.session_id = sid)
    (hresp : ∀ x ∈ msgs, x.response_id ≠ 0)
    (hreq : ∀ x ∈ msgs, x.request_id ≠ 0)
    (hm : m ∈ msgs) (hty : m.type = MsgType.STATUS) :
    Effect.deQueueClientRequest c m.task_id ∈ receiveMessages wkf prng c msgs ∧
    Effect.queueNotification m.session_id m.priority (some m.request_id)
      ∈ receiveMessages wkf prng c msgs ∧
    (Effect.publishClientCrash m ∈ receiveMessages wkf prng c msgs ↔
      m.payloadStatus = StatusKind.CLIENT_KILLED) := by
  have hne : msgs ≠ [] := by intro h; rw [h] at hm; cases hm
  have heff : receiveMessages wkf prng c msgs =
      msgs.map (fun x => Effect.queueResponse sid x) ++ notifyLoop c msgs := by
    rw [receiveMessages, groupBySession_single sid msgs hne hsid]
    simp [receiveGroups, processGroup, handleWKF_all_nonzero wkf prng msgs hresp,
      wkfDispatchEffects, hne]
  have hnl := notifyLoop_status_mem c msgs hreq m hm hty
  rw [heff]
  refine ⟨List.mem_append_right _ hnl.1, List.mem_append_right _ hnl.2.1, ?_, ?_⟩
  · intro hcr
    rcases List.mem_append.mp hcr with hl | hl
    · rcases List.mem_map.mp hl with ⟨x, _, hx⟩
      cases hx
    · exact notifyLoop_crash_killed c m msgs hl
  · intro hk
    exact List.mem_append_right _ (hnl.2.2 hk)

/-- A STATUS message with non-zero request id reporting CLIENT_KILLED. -/
def killedStatusMsg : GrrMessage :=
  { session_id := ⟨"C.1/F2:2", "F2"⟩, request_id := 5, response_id := 7,
    task_id := 42, task_ttl := 6, priority := 2, type := MsgType.STATUS,
    payloadStatus := StatusKind.CLIENT_KILLED }

/-- Witness for C5_status_ingest at a one-message group. -/
theorem C5_status_ingest_witness :
    Effect.deQueueClientRequest 1 killedStatusMsg.task_id ∈
      receiveMessages [] (fun _ => 9) 1 [killedStatusMsg] ∧
    Effect.queueNotification killedStatusMsg.session_id killedStatusMsg.priority
      (some killedStatusMsg.request_id) ∈ receiveMessages [] (fun _ => 9) 1 [killedStatusMsg] ∧
    (Effect.publishClientCrash killedStatusMsg ∈
        receiveMessages [] (fun _ => 9) 1 [killedStatusMsg] ↔
      killedStatusMsg.payloadStatus = StatusKind.CLIENT_KILLED) :=
  C5_status_ingest [] (fun _ => 9) 1 killedStatusMsg.session_id [killedStatusMsg]
    killedStatusMsg (by decide) (by decide) (by decide) (by decide) (by decide)

/-! ## Claims about HandleMessageBundles -/

/-- C6: when `EncodeMessages` fails with `UnknownClientCert`, every task
drained for this bundle is rescheduled onto the agent's outbound queue
(the `Schedule(tasks)` effect is in the trace) and the failure propagates
to the caller. -/
theorem C6_reschedule_on_unknown_source (inp : BundleInput)
    (h : inp.encodeRaisesUnknownSource = true) :
    (handleMessageBundles inp).1 = Except.error "UnknownClientCert" ∧
    Effect.schedule (bundleTasks inp) ∈ (handleMessageBundles inp).2 := by
  constructor
  · simp [handleMessageBundles, h]
  · simp [handleMessageBundles, h]

/-- A bundle whose response encoding fails for lack of a client cert. -/
def encodeFailInput : BundleInput :=
  { messages := [], source := 1, queue_size := 0, max_queue_size := 50,
    shouldThrottle := false, throttleCallbackAdmit := true, withinTimeBudget := true,
    encodeRaisesUnknownSource := true, initial_ttl := 7,
    statusFound := fun _ => false, newTasks := [onceLeasedTask], wkf := [],
    prng := fun _ => 9 }

/-- Witness for C6_reschedule_on_unknown_source. -/
theorem C6_reschedule_on_unknown_source_witness :
    (handleMessageBundles encodeFailInput).1 = Except.error "UnknownClientCert" ∧
    Effect.schedule (bundleTasks encodeFailInput) ∈
      (handleMessageBundles encodeFailInput).2 :=
  C6_reschedule_on_unknown_source encodeFailInput rfl

/-- The same bundle input, admitted: not throttled, callback allows, and
the ten-second latency budget is not exhausted. -/
def admittedInput (inp : BundleInput) : BundleInput :=
  { inp with
      shouldThrottle := false
      throttleCallbackAdmit := true
      withinTimeBudget := true }

/-- C7: a bundle that is throttled by the sliding-window throttler or
denied by the external throttle callback still runs the full ingest phase
(the `ReceiveMessages` effects are unchanged and still open the trace);
the only difference from an admitted bundle is that no tasks are drained —
the drained list is empty and the queue store is never queried. -/
theorem C7_ingest_not_bypassed (inp : BundleInput)
    (h : inp.shouldThrottle = true ∨ inp.throttleCallbackAdmit = false) :
    bundleIngestEffects inp = bundleIngestEffects (admittedInput inp) ∧
    (handleMessageBundles inp).2 =
      bundleIngestEffects inp ++ (bundleEgress inp).2 ++
        [if inp.encodeRaisesUnknownSource then Effect.schedule (bundleTasks inp)
         else Effect.encodeMessages (bundleTasks inp)] ∧
    bundleTasks inp = [] ∧
    ∀ q l, Effect.queryAndOwned q l ∉ (bundleEgress inp).2 := by
  refine ⟨rfl, ?_, ?_, ?_⟩
  · by_cases he : inp.encodeRaisesUnknownSource <;>
      simp [handleMessageBundles, he, List.append_assoc]
  · rcases h with h | h <;> simp [bundleTasks, bundleEgress, h]
  · rcases h with h | h <;> intro q l <;> simp [bundleEgress, h]

/-- A bundle carrying one STATUS message that arrives while the throttler
says throttle. -/
def throttledBundleInput : BundleInput :=
  { messages := [killedStatusMsg], source := 1, queue_size := 0, max_queue_size := 50,
    shouldThrottle := true, throttleCallbackAdmit := true, withinTimeBudget := true,
    encodeRaisesUnknownSource := false, initial_ttl := 7,
    statusFound := fun _ => false, newTasks := [onceLeasedTask], wkf := [],
    prng := fun _ => 9 }

/-- Witness for C7_ingest_not_bypassed. -/
theorem C7_ingest_not_bypassed_witness :
    bundleIngestEffects throttledBundleInput =
      bundleIngestEffects (admittedInput throttledBundleInput) ∧
    (handleMessageBundles throttledBundleInput).2 =
      bundleIngestEffects throttledBundleInput ++ (bundleEgress throttledBundleInput).2 ++
        [if throttledBundleInput.encodeRaisesUnknownSource then
          Effect.schedule (bundleTasks throttledBundleInput)
         else Effect.encodeMessages (bundleTasks throttledBundleInput)] ∧
    bundleTasks throttledBundleInput = [] ∧
    ∀ q l, Effect.queryAndOwned q l ∉ (bundleEgress throttledBundleInput).2 :=
  C7_ingest_not_bypassed throttledBundleInput (Or.inl rfl)

/-! ## Claims about HandleWellKnownFlows -/

/-- The dispatcher's output only holds non-zero response ids (under the
spec-modelled assumption that the PRNG never returns 0), and every inbound
message with response id 0 addressed to a non-well-known flow is forwarded
with some PRNG value as its response id. -/
theorem handleWKF_fresh_ids (wkf : List String) (prng : Nat → Nat)
    (msgs : List GrrMessage) (hprng : ∀ n, prng n ≠ 0) :
    ∀ k, (∀ m ∈ (handleWKF wkf prng k msgs).1, m.response_id ≠ 0) ∧
      (∀ m ∈ msgs, m.response_id = 0 → m.session_id.flowName ∉ wkf →
        ∃ j, ({ m with response_id := prng j } : GrrMessage)
          ∈ (handleWKF wkf prng k msgs).1) := by
  induction msgs with
  | nil => intro k; exact ⟨by simp [handleWKF], by simp⟩
  | cons a rest ih =>
    intro k
    by_cases ha : a.response_id = 0
    · by_cases hw : a.session_id.flowName ∈ wkf
      · constructor
        · intro m hm
          exact (ih k).1 m (by simpa [handleWKF, ha, hw] using hm)
        · intro m hm h0 hnw
          rcases List.mem_cons.mp hm with rfl | hm'
          · exact absurd hw hnw
          · obtain ⟨j, hj⟩ := (ih k).2 m hm' h0 hnw
            exact ⟨j, by simpa [handleWKF, ha, hw] using hj⟩
      · constructor
        · intro m hm
          have hm' : m = { a with response_id := prng k } ∨
              m ∈ (handleWKF wkf prng (k + 1) rest).1 := by
            simpa [handleWKF, ha, hw] using hm
          rcases hm' with rfl | hm'
          · simpa using hprng k
          · exact (ih (k + 1)).1 m hm'
        · intro m hm h0 hnw
          rcases List.mem_cons.mp hm with rfl | hm'
          · exact ⟨k, by simp [handleWKF, ha, hw]⟩
          · obtain ⟨j, hj⟩ := (ih (k + 1)).2 m hm' h0 hnw
            exact ⟨j, by simp [handleWKF, ha, hw, hj]⟩
    · constructor
      · intro m hm
        have hm' : m = a ∨ m ∈ (handleWKF wkf prng k rest).1 := by
          simpa [handleWKF, ha] using hm
        rcases hm' with rfl | hm'
        · exact ha
        · exact (ih k).1 m hm'
      · intro m hm h0 hnw
        rcases List.mem_cons.mp hm with rfl | hm'
        · exact absurd h0 ha
        · obtain ⟨j, hj⟩ := (ih k).2 m hm' h0 hnw
          exact ⟨j, by simp [handleWKF, ha, hj]⟩

/-- C9: for every inbound message with `response_id = 0` whose session's
flow name is not a configured well-known handler, `HandleWellKnownFlows`
forwards it for persistence with a fresh PRNG-drawn response id, and —
under the spec-modelled assumption that `utils.PRNG.GetULong` never
returns 0 — every forwarded message carries a non-zero response id. -/
theorem C9_fresh_response_id (wkf : List String) (prng : Nat → Nat) (k : Nat)
    (msgs : List GrrMessage) (hprng : ∀ n, prng n ≠ 0) :
    (∀ m ∈ (handleWKF wkf prng k msgs).1, m.response_id ≠ 0) ∧
    (∀ m ∈ msgs, m.response_id = 0 → m.session_id.flowName ∉ wkf →
      ∃ j, ({ m with response_id := prng j } : GrrMessage)
        ∈ (handleWKF wkf prng k msgs).1) :=
  handleWKF_fresh_ids wkf prng msgs hprng k

/-- A new request to a regular flow: response id 0, flow not well-known. -/
def zeroRespMsg : GrrMessage :=
  { session_id := ⟨"C.1/F3:3", "F3"⟩, request_id := 1, response_id := 0,
    task_id := 7, task_ttl := 6, priority := 1, type := MsgType.MESSAGE,
    payloadStatus := StatusKind.OK }

/-- A PRNG stub that always yields 9. -/
def constPrng : Nat → Nat := fun _ => 9

/-- Witness for C9_fresh_response_id. -/
theorem C9_fresh_response_id_witness :
    (∀ m ∈ (handleWKF [] constPrng 0 [zeroRespMsg]).1, m.response_id ≠ 0) ∧
    (∀ m ∈ [zeroRespMsg], m.response_id = 0 → m.session_id.flowName ∉ ([] : List String) →
      ∃ j, ({ m with response_id := constPrng j } : GrrMessage)
        ∈ (handleWKF [] constPrng 0 [zeroRespMsg]).1) :=
  C9_fresh_response_id [] constPrng 0 [zeroRespMsg] (fun n => by simp [constPrng])

/-! ## Claims about UpdateAndCheckIfShouldThrottle -/

/-- Throttler state right after `SetThrottleBundlesRatio(0)` on a freshly
constructed server. -/
def zeroRateState : ThrottleState := setThrottleBundlesRatio initThrottleState (some 0)

/-- C8 counterexample: with throttle ratio 0 (and
`Frontend.throttle_average_interval = 60`), two bundles arriving at the
same time 5 make the *second* call return false: the window spread is 0,
so the admission test `bundle_time - last_not_throttled < 0 / ε` compares
5 < 0 and fails, and the bundle is admitted.  The claim that every call
after the first returns true for every arrival sequence is false. -/
theorem C8_counterexample :
    (updateAndCheckIfShouldThrottle 60 zeroRateState 5).1 = true ∧
    (updateAndCheckIfShouldThrottle 60
      (updateAndCheckIfShouldThrottle 60 zeroRateState 5).2 5).1 = false := by
  have hmax : max (1 / 10000000 : ℚ) 0 = 1 / 10000000 := max_eq_left (by norm_num)
  have h1 : updateAndCheckIfShouldThrottle 60 zeroRateState 5 =
      (true, { ratio := some 0, handled_bundles := [5],
               last_not_throttled_bundle_time := 0 }) := by
    norm_num [updateAndCheckIfShouldThrottle, zeroRateState, setThrottleBundlesRatio,
      initThrottleState, prunedWindow, List.dropWhile]
  rw [h1]
  refine ⟨rfl, ?_⟩
  norm_num [updateAndCheckIfShouldThrottle, prunedWindow, List.dropWhile,
    List.getLastD, hmax]

/-- C8 (amended): with throttle ratio 0, `UpdateAndCheckIfShouldThrottle`
returns true on every call whose pruned arrival window holds at most one
entry, and on every call with a larger window whose time since the last
admitted bundle is below the window's mean inter-arrival divided by the
1e-7 ratio floor.  (Outside these conditions a zero-ratio call can admit,
as the counterexample shows.) -/
theorem C8_zero_rate_throttles (windowCfg : ℚ) (s : ThrottleState) (t : ℚ)
    (h0 : s.ratio = some 0)
    (hcond : (prunedWindow windowCfg s.handled_bundles t).length ≤ 1 ∨
      t - s.last_not_throttled_bundle_time <
        ((prunedWindow windowCfg s.handled_bundles t).getLastD 0 -
          (prunedWindow windowCfg s.handled_bundles t).headD 0) /
          (((prunedWindow windowCfg s.handled_bundles t).length : ℚ) - 1) /
          (1 / 10000000 : ℚ)) :
    (updateAndCheckIfShouldThrottle windowCfg s t).1 = true := by
  have hmax : max (1 / 10000000 : ℚ) 0 = 1 / 10000000 := max_eq_left (by norm_num)
  by_cases hlen : (prunedWindow windowCfg s.handled_bundles t).length > 1
  · rcases hcond with hle | hlt
    · omega
    · simp only [updateAndCheckIfShouldThrottle, h0, hmax]
      rw [if_pos hlen, if_pos hlt]
  · simp only [updateAndCheckIfShouldThrottle, h0]
    rw [if_neg hlen]
    simp

/-- Witness for C8_zero_rate_throttles: the first zero-ratio call (window
of size one) is throttled. -/
theorem C8_zero_rate_throttles_witness :
    zeroRateState.ratio = some 0 ∧
    (updateAndCheckIfShouldThrottle 60 zeroRateState 5).1 = true :=
  ⟨rfl, C8_zero_rate_throttles 60 zeroRateState 5 rfl (Or.inl (by
    norm_num [prunedWindow, zeroRateState, setThrottleBundlesRatio,
      initThrottleState, List.dropWhile]))⟩

end FrontEnd
